import Mathlib

/-!
Shallow embedding of the ai-rag-chatbot repository (src/ingest.py, src/app.py,
src/single-app.py) and proofs about its specification.

Modelling conventions:
* Python `str` is Lean `String` (a list of unicode scalar values); slicing and
  stripping are re-implemented below over `String.data`.
* The external libraries (PDF loader, text splitter, FAISS vector store,
  OpenAI chat/embedding clients) are modelled at the contract level the
  repository relies on; the text-splitting function itself is kept abstract
  (a parameter `split : String → List String`), since no claim depends on the
  exact cut points, only on configuration and metadata propagation.
* Fallible remote calls are modelled as `Except String _` (the error carries
  the exception text); HTTP handlers become pure functions from the request
  payload (and the abstracted chain) to a response record.
-/

/-- Python `str.strip()`: remove leading and trailing whitespace characters. -/
def pyStrip (s : String) : String :=
  ⟨((s.data.dropWhile Char.isWhitespace).reverse.dropWhile Char.isWhitespace).reverse⟩

/-- Python slice `s[:n]`: the first `n` characters of `s`. -/
def pySlice (n : Nat) (s : String) : String :=
  ⟨s.data.take n⟩

/-- Metadata dictionary of a LangChain document, restricted to the two keys the
repository reads or writes (`page`, `source`); a missing key is `none`. -/
structure Metadata where
  page : Option Nat
  source : Option String
  deriving DecidableEq

/-- A LangChain document: text plus metadata. -/
structure Document where
  page_content : String
  metadata : Metadata
  deriving DecidableEq

/-- Contract of the PyPDFLoader library (spec section 4.1, both variants load
with it): one document per page, zero-based page index in `metadata.page`, the
file path in `metadata.source`; `i` is the index of the first page in the list. -/
def pdfPagesFrom (path : String) : Nat → List String → List Document
  | _, [] => []
  | i, t :: ts => ⟨t, ⟨some i, some path⟩⟩ :: pdfPagesFrom path (i + 1) ts

/-- `loader.load()` for a PDF at `path` whose extracted page texts are `pageTexts`. -/
def pyPdfLoad (path : String) (pageTexts : List String) : List Document :=
  pdfPagesFrom path 0 pageTexts

/-- Default separator fallback list of RecursiveCharacterTextSplitter
(paragraph, line, space, character), used when no separators are passed. -/
def defaultSeparators : List String := ["\n\n", "\n", " ", ""]

/-- The splitter configuration the repository passes to
RecursiveCharacterTextSplitter. -/
structure SplitterConfig where
  chunk_size : Nat
  chunk_overlap : Nat
  separators : List String := defaultSeparators
  deriving DecidableEq

/-- src/ingest.py lines 21-25: chunk_size 800, chunk_overlap 150, explicit
separator list. -/
def ingestSplitter : SplitterConfig :=
  { chunk_size := 800, chunk_overlap := 150, separators := ["\n\n", "\n", " ", ""] }

/-- src/single-app.py line 47: chunk_size 1000, chunk_overlap 200, separators
left to the library default. -/
def singleAppSplitter : SplitterConfig :=
  { chunk_size := 1000, chunk_overlap := 200 }

/-- `splitter.split_documents`: cut each document text into pieces (the cut
itself is library behavior, abstracted as `split`) and give every piece a copy
of its source document's metadata. -/
def split_documents (split : String → List String) : List Document → List Document
  | [] => []
  | d :: ds => (split d.page_content).map (fun t => ⟨t, d.metadata⟩) ++ split_documents split ds

/-- src/ingest.py line 13: the source PDF path. -/
def ingestPdfPath : String := "./the_nestle_hr_policy_pdf_2012.pdf"

/-- src/ingest.py line 30: the fixed source label stamped onto every chunk. -/
def sourceLabel : String := "Nestlé HR Policy (2012)"

/-- src/ingest.py line 34: embedding model used at ingestion. -/
def ingestEmbeddingModel : String := "text-embedding-3-small"

/-- src/ingest.py line 39: directory the index is persisted to. -/
def ingestIndexDir : String := "faiss_index_nestle_hr_2012"

/-- src/app.py line 19: directory the serving process loads the index from. -/
def INDEX_DIR : String := "faiss_index_nestle_hr_2012"

/-- src/app.py line 26: embedding model used to embed queries at serving. -/
def appEmbeddingModel : String := "text-embedding-3-small"

/-- Configuration of a ChatOpenAI client as the repository constructs it. -/
structure ChatModelConfig where
  model : String
  temperature : ℚ
  deriving DecidableEq

/-- src/app.py line 32: the chat model of the primary service. -/
def appLlm : ChatModelConfig := { model := "gpt-4o-mini", temperature := 0 }

/-- src/single-app.py line 79: the chat model of the standalone variant. -/
def singleAppLlm : ChatModelConfig := { model := "gpt-4o-mini", temperature := 0 }

/-- src/single-app.py line 45: the source PDF path of the standalone variant. -/
def singleAppPdfPath : String := "./the_nestle_hr_policy_pdf_2012.pdf"

/-- src/single-app.py line 67: directory the standalone variant saves to. -/
def singleAppIndexDir : String := "faiss_index"

/-- Outcome of an ingestion run: either the process aborted (with its exit
status and the diagnostic lines it printed) before any index was written, or it
completed and persisted the given chunks to the given index directory. -/
inductive IngestOutcome where
  | aborted (exitCode : Nat) (diagnostics : List String)
  | completed (indexDir : String) (chunks : List Document)
  deriving DecidableEq

/-- Whether an ingestion run wrote a vector index to disk. -/
def writesIndex : IngestOutcome → Bool
  | IngestOutcome.aborted _ _ => false
  | IngestOutcome.completed _ _ => true

/-- Exit status of an aborted ingestion run. -/
def exitCodeOf : IngestOutcome → Option Nat
  | IngestOutcome.aborted c _ => some c
  | IngestOutcome.completed _ _ => none

/-- src/ingest.py lines 28-31: the chunks the dedicated ingestion script embeds
and persists — pages loaded, split, then every chunk's `source` set to the
fixed label (`page` is left as the loader produced it). -/
def ingestChunks (split : String → List String) (pageTexts : List String) : List Document :=
  (split_documents split (pyPdfLoad ingestPdfPath pageTexts)).map
    (fun d => { d with metadata := { d.metadata with source := some sourceLabel } })

/-- src/ingest.py `main`: the `assert pdf_path.exists()` on line 14 fails when
the PDF is missing; an unhandled AssertionError terminates the Python process
with exit status 1 and the assertion message on stderr (the f-string resolves
the path; the configured path stands in for the resolved one here). Otherwise
the pipeline runs and persists the index. -/
def ingestMain (split : String → List String) (pdfExists : Bool)
    (pageTexts : List String) : IngestOutcome :=
  if pdfExists then
    IngestOutcome.completed ingestIndexDir (ingestChunks split pageTexts)
  else
    IngestOutcome.aborted 1 ["PDF not found at " ++ ingestPdfPath]

/-- src/single-app.py Step 3: chunks of the standalone variant — split only, no
metadata is touched (no source label is stamped). -/
def singleAppChunks (split : String → List String) (pageTexts : List String) : List Document :=
  split_documents split (pyPdfLoad singleAppPdfPath pageTexts)

/-- src/single-app.py Steps 3-4 (lines 43-68): for a missing local file the
PyPDFLoader constructor itself raises ValueError ("File path ... is not a
valid file or url") from its isfile check; the `except FileNotFoundError`
handler on lines 50-53 does not catch it, so that handler is dead code for
this case. The unhandled ValueError terminates the Python process with exit
status 1 and the exception message on stderr, before any index is written.
Otherwise the index is built and saved. -/
def singleAppStartup (split : String → List String) (pdfExists : Bool)
    (pageTexts : List String) : IngestOutcome :=
  if pdfExists then
    IngestOutcome.completed singleAppIndexDir (singleAppChunks split pageTexts)
  else
    IngestOutcome.aborted 1
      ["File path " ++ singleAppPdfPath ++ " is not a valid file or url"]

/-- A LangChain chat message as the repository constructs them. -/
inductive LcMessage where
  | human (content : String)
  | ai (content : String)
  deriving DecidableEq

/-- One element of the JSON `history` array sent to the primary service; keys
looked up with `.get`, so a missing key is `none`. -/
structure RoleMsg where
  role : Option String
  content : Option String

/-- src/app.py `lc_history_from_json` (lines 71-79): keep `user` entries as
HumanMessage and `assistant` entries as AIMessage, drop anything else. -/
def lc_history_from_json (raw : List RoleMsg) : List LcMessage :=
  raw.filterMap (fun m =>
    if m.role = some "user" then some (LcMessage.human (m.content.getD ""))
    else if m.role = some "assistant" then some (LcMessage.ai (m.content.getD ""))
    else none)

/-- The dictionary `rag_chain.invoke` returns, restricted to the keys the
handler reads with `.get`. -/
structure RagResult where
  answer : Option String
  context : Option (List Document)

/-- One element of the `sources` array of the primary service's response. -/
structure SourceDescriptor where
  page : Option Nat
  source : String
  preview : String
  deriving DecidableEq

/-- src/app.py `sources_from_context` (lines 81-91): one descriptor per context
document, in order; `preview` is the first 220 characters of the text,
stripped. -/
def sources_from_context (ctx_docs : List Document) : List SourceDescriptor :=
  ctx_docs.map (fun d =>
    { page := d.metadata.page
      source := d.metadata.source.getD "Nestlé HR Policy (2012)"
      preview := pyStrip (pySlice 220 d.page_content) })

/-- JSON body of a POST /chat request to the primary service; keys looked up
with `.get`, so a missing key is `none` / the default. -/
structure AppPayload where
  message : Option String
  history : List RoleMsg

/-- HTTP response of the primary service's /chat handler. -/
structure AppChatResponse where
  status : Nat
  answer : String
  sources : List SourceDescriptor

/-- src/app.py `chat` (lines 99-110): strip the message (no emptiness check of
any kind), convert the history, invoke the rag chain (abstracted as
`ragInvoke`), and return HTTP 200 with the stripped answer and the source
descriptors. -/
def appChat (ragInvoke : String → List LcMessage → RagResult)
    (payload : AppPayload) : AppChatResponse :=
  let user_input := pyStrip (payload.message.getD "")
  let chat_history := lc_history_from_json payload.history
  let result := ragInvoke user_input chat_history
  { status := 200
    answer := pyStrip (result.answer.getD "")
    sources := sources_from_context (result.context.getD []) }

/-- An HTTP status in the client-error class. -/
def isClientError (status : Nat) : Prop := 400 ≤ status ∧ status < 500

instance (s : Nat) : Decidable (isClientError s) :=
  inferInstanceAs (Decidable (400 ≤ s ∧ s < 500))

/-- JSON body of a POST /chat request to the standalone variant. -/
structure SinglePayload where
  query : Option String

/-- The dictionary `retrieval_chain.invoke` returns, restricted to the key the
standalone handler reads (direct indexing, the chain always provides it). -/
structure ChainOutput where
  answer : String
  deriving DecidableEq

/-- Observable outcome of the standalone variant's /chat handler: HTTP status,
response body text, the global `chat_history` after the request, and the lines
printed to the process console. -/
structure SingleChatResult where
  status : Nat
  body : String
  newHistory : List LcMessage
  console : List String
  deriving DecidableEq

/-- src/single-app.py `chat` (lines 250-273): empty/missing query gives HTTP
400; otherwise the retrieval chain is invoked (abstracted as `invoke`, with
`Except.error` carrying a raised exception's text). On success two messages
are appended to the global history and HTTP 200 returned; on exception the
handler prints the exception to the console and returns HTTP 500 with a fixed
generic body, leaving the history untouched. -/
def singleChat (invoke : String → List LcMessage → Except String ChainOutput)
    (hist : List LcMessage) (data : SinglePayload) : SingleChatResult :=
  if data.query.getD "" = "" then
    { status := 400, body := "Please enter a query.", newHistory := hist, console := [] }
  else
    match invoke (data.query.getD "") hist with
    | Except.error e =>
        { status := 500
          body := "An error occurred while processing your request."
          newHistory := hist
          console := ["An error occurred: " ++ e] }
    | Except.ok r =>
        { status := 200
          body := r.answer
          newHistory := hist ++ [LcMessage.human (data.query.getD ""), LcMessage.ai r.answer]
          console := [] }

/-- A vector-index entry: a chunk together with its embedding-space distance to
the current query (the distance itself is produced by the external embedding
and index; only its ordering matters here). -/
structure ScoredDoc where
  doc : Document
  dist : Nat
  deriving DecidableEq

/-- Comparison of index entries by embedding-space distance. -/
def distLE (a b : ScoredDoc) : Prop := a.dist ≤ b.dist

instance : DecidableRel distLE := fun a b => Nat.decLe a.dist b.dist

instance : IsTotal ScoredDoc distLE := ⟨fun a b => Nat.le_total a.dist b.dist⟩

instance : IsTrans ScoredDoc distLE := ⟨fun _ _ _ hab hbc => Nat.le_trans hab hbc⟩

/-- Contract of the vector store's similarity retrieval (spec section 4.3):
order the indexed entries by increasing distance to the query and return the
first `k`. -/
def similaritySearch (k : Nat) (corpus : List ScoredDoc) : List ScoredDoc :=
  (List.insertionSort distLE corpus).take k

/-- src/app.py line 45: `as_retriever(search_kwargs={"k": 5})`. -/
def appRetrieverK : Option Nat := some 5

/-- src/single-app.py line 83: `as_retriever()` — no `k` supplied, the library
default applies. -/
def singleAppRetrieverK : Option Nat := none

/-- Retrieval as configured in the primary service: top 5 by distance. -/
def appRetrieve (corpus : List ScoredDoc) : List ScoredDoc :=
  similaritySearch 5 corpus

/-- Document with empty text and no metadata, used as a `getD` default. -/
def emptyDoc : Document := ⟨"", ⟨none, none⟩⟩

/-- Empty source descriptor, used as a `getD` default. -/
def emptyDescr : SourceDescriptor := ⟨none, "", ""⟩

/-- A concrete six-entry scored corpus (distances 3, 1, 2, 5, 4, 0). -/
def corpusW : List ScoredDoc :=
  [⟨emptyDoc, 3⟩, ⟨emptyDoc, 1⟩, ⟨emptyDoc, 2⟩, ⟨emptyDoc, 5⟩, ⟨emptyDoc, 4⟩, ⟨emptyDoc, 0⟩]

lemma pyStrip_length_le (s : String) : (pyStrip s).length ≤ s.length := by
  show (((s.data.dropWhile Char.isWhitespace).reverse.dropWhile
      Char.isWhitespace).reverse).length ≤ s.data.length
  rw [List.length_reverse]
  calc ((s.data.dropWhile Char.isWhitespace).reverse.dropWhile Char.isWhitespace).length
      ≤ (s.data.dropWhile Char.isWhitespace).reverse.length :=
        (List.dropWhile_sublist _).length_le
    _ = (s.data.dropWhile Char.isWhitespace).length := List.length_reverse _
    _ ≤ s.data.length := (List.dropWhile_sublist _).length_le

lemma pySlice_length_le (n : Nat) (s : String) : (pySlice n s).length ≤ n :=
  List.length_take_le n s.data

lemma getD_map_of_lt {α β : Type} (f : α → β) (dflt : β) (dfltA : α) :
    ∀ (l : List α) (i : Nat), i < l.length → (l.map f).getD i dflt = f (l.getD i dfltA)
  | _ :: _, 0, _ => rfl
  | _ :: l, i + 1, h => getD_map_of_lt f dflt dfltA l i (Nat.lt_of_succ_lt_succ h)

lemma mem_pdfPagesFrom {path : String} {d : Document} :
    ∀ {i : Nat} {ts : List String}, d ∈ pdfPagesFrom path i ts →
      d.metadata.source = some path ∧
        ∃ p, d.metadata.page = some p ∧ i ≤ p ∧ p < i + ts.length := by
  intro i ts
  induction ts generalizing i with
  | nil => intro h; cases h
  | cons t ts ih =>
    intro h
    rcases List.mem_cons.mp h with h | h
    · subst h
      exact ⟨rfl, i, rfl, Nat.le_refl i, by simp [Nat.lt_succ_of_le (Nat.le_add_right i ts.length)]⟩
    · obtain ⟨hs, p, hp, hip, hlt⟩ := ih h
      refine ⟨hs, p, hp, Nat.le_of_succ_le hip, ?_⟩
      have : i + 1 + ts.length = i + (t :: ts).length := by
        simp [List.length_cons]; omega
      omega

lemma mem_split_documents {split : String → List String} {c : Document} :
    ∀ {ds : List Document}, c ∈ split_documents split ds →
      ∃ d ∈ ds, c.metadata = d.metadata := by
  intro ds
  induction ds with
  | nil => intro h; cases h
  | cons d ds ih =>
    intro h
    rcases List.mem_append.mp h with h | h
    · obtain ⟨t, _, rfl⟩ := List.mem_map.mp h
      exact ⟨d, List.mem_cons_self d ds, rfl⟩
    · obtain ⟨d0, hd0, hm⟩ := ih h
      exact ⟨d0, List.mem_cons_of_mem d hd0, hm⟩

/-- C5: the dedicated ingestion script persists the index to the same directory
name the primary serving process loads from, and both use the same embedding
model identifier. -/
theorem index_contract_matches :
    ingestIndexDir = INDEX_DIR ∧ ingestEmbeddingModel = appEmbeddingModel :=
  ⟨rfl, rfl⟩

/-- C9: the chat model is configured with temperature 0 (the minimum) in both
the primary service and the standalone variant. -/
theorem llm_temperature_minimum :
    appLlm.temperature = 0 ∧ singleAppLlm.temperature = 0 :=
  ⟨rfl, rfl⟩

/-- C7: both splitter configurations use the paragraph/line/space/character
separator fallback list (explicit in ingest.py, the library default in
single-app.py), with chunk size 800 and overlap 150 in the dedicated script and
chunk size 1000 and overlap 200 in the standalone variant — all within the
claimed 800-1000 and 150-200 ranges. -/
theorem splitter_config_in_range :
    ingestSplitter.separators = ["\n\n", "\n", " ", ""] ∧
    singleAppSplitter.separators = ["\n\n", "\n", " ", ""] ∧
    ingestSplitter.chunk_size = 800 ∧ ingestSplitter.chunk_overlap = 150 ∧
    singleAppSplitter.chunk_size = 1000 ∧ singleAppSplitter.chunk_overlap = 200 ∧
    800 ≤ ingestSplitter.chunk_size ∧ ingestSplitter.chunk_size ≤ 1000 ∧
    800 ≤ singleAppSplitter.chunk_size ∧ singleAppSplitter.chunk_size ≤ 1000 ∧
    150 ≤ ingestSplitter.chunk_overlap ∧ ingestSplitter.chunk_overlap ≤ 200 ∧
    150 ≤ singleAppSplitter.chunk_overlap ∧ singleAppSplitter.chunk_overlap ≤ 200 := by
  decide

/-- C2: if the source PDF does not exist, both the dedicated ingestion script
(failed assert, hence an unhandled AssertionError) and the standalone
variant's ingestion step (unhandled ValueError from the loader's file check)
abort immediately with exit status 1 — non-zero — and a clear diagnostic
message, and no vector index is written. -/
theorem missing_pdf_aborts_without_index (split : String → List String)
    (pageTexts : List String) :
    ingestMain split false pageTexts =
      IngestOutcome.aborted 1 ["PDF not found at " ++ ingestPdfPath] ∧
    singleAppStartup split false pageTexts =
      IngestOutcome.aborted 1
        ["File path " ++ singleAppPdfPath ++ " is not a valid file or url"] ∧
    (∃ c, exitCodeOf (ingestMain split false pageTexts) = some c ∧ c ≠ 0) ∧
    (∃ c, exitCodeOf (singleAppStartup split false pageTexts) = some c ∧ c ≠ 0) ∧
    writesIndex (ingestMain split false pageTexts) = false ∧
    writesIndex (singleAppStartup split false pageTexts) = false :=
  ⟨rfl, rfl, ⟨1, rfl, Nat.one_ne_zero⟩, ⟨1, rfl, Nat.one_ne_zero⟩, rfl, rfl⟩

/-- C3 counterexample: in the standalone variant no source label is ever
stamped — a chunk's `source` metadata is the PDF file path put there by the
loader, which differs from the fixed label. -/
theorem single_chunk_source_is_path_not_label :
    (singleAppChunks (fun s => [s]) ["hello"]).map (fun d => d.metadata.source) =
      [some singleAppPdfPath] ∧
    singleAppPdfPath ≠ sourceLabel := by
  exact ⟨rfl, by decide⟩

/-- C3 amended: every chunk produced by the dedicated ingestion script carries
`source` equal to the fixed label, and every chunk of the standalone variant
carries `source` equal to the PDF file path set by the loader (non-null, but
not the fixed label); in both variants the `page` metadata is the loader's
page index, verbatim, a non-negative integer below the page count. -/
theorem chunk_metadata_preserved (split : String → List String)
    (pageTexts : List String) :
    (∀ c ∈ ingestChunks split pageTexts,
        c.metadata.source = some sourceLabel ∧
        ∃ p, c.metadata.page = some p ∧ p < pageTexts.length) ∧
    (∀ c ∈ singleAppChunks split pageTexts,
        c.metadata.source = some singleAppPdfPath ∧
        ∃ p, c.metadata.page = some p ∧ p < pageTexts.length) := by
  constructor
  · intro c hc
    obtain ⟨c0, hc0, rfl⟩ := List.mem_map.mp hc
    obtain ⟨d, hd, hmeta⟩ := mem_split_documents hc0
    obtain ⟨_, p, hp, _, hlt⟩ := mem_pdfPagesFrom hd
    refine ⟨rfl, p, ?_, by simpa using hlt⟩
    simpa [hmeta] using hp
  · intro c hc
    obtain ⟨d, hd, hmeta⟩ := mem_split_documents hc
    obtain ⟨hs, p, hp, _, hlt⟩ := mem_pdfPagesFrom hd
    rw [hmeta]
    exact ⟨hs, p, hp, by simpa using hlt⟩

/-- C3 amended, witness at a concrete one-page input. -/
theorem chunk_metadata_preserved_witness :
    (⟨"hi", ⟨some 0, some sourceLabel⟩⟩ : Document) ∈ ingestChunks (fun s => [s]) ["hi"] ∧
    ((⟨"hi", ⟨some 0, some sourceLabel⟩⟩ : Document).metadata.source = some sourceLabel ∧
      ∃ p, (⟨"hi", ⟨some 0, some sourceLabel⟩⟩ : Document).metadata.page = some p ∧
        p < (["hi"] : List String).length) :=
  ⟨by decide, (chunk_metadata_preserved (fun s => [s]) ["hi"]).1 _ (by decide)⟩

/-- C1 counterexample: the primary service's /chat handler performs no
emptiness check — at a payload with no `message` field it still invokes the
retrieval chain (the chain's answer reaches the response) and returns HTTP
200, not a client-error response. -/
theorem app_chat_accepts_empty_message :
    (appChat (fun _ _ => { answer := some "chain answer", context := some [] })
        { message := none, history := [] }).status = 200 ∧
    ¬ isClientError (appChat (fun _ _ => { answer := some "chain answer", context := some [] })
        { message := none, history := [] }).status ∧
    (appChat (fun _ _ => { answer := some "chain answer", context := some [] })
        { message := none, history := [] }).answer = "chain answer" := by
  refine ⟨rfl, by decide, by decide⟩

/-- C1 amended: on a missing or empty query the standalone variant returns
HTTP 400 with the explanatory body "Please enter a query." and does not invoke
the retrieval chain (the response is the same for every chain); the primary
service performs no such validation — the missing/empty message is stripped to
the empty string, passed to the retrieval chain, and a successful chain call
yields HTTP 200. -/
theorem chat_empty_query_handling
    (invS : String → List LcMessage → Except String ChainOutput)
    (invA : String → List LcMessage → RagResult)
    (hist : List LcMessage) (data : SinglePayload) (payload : AppPayload)
    (hq : data.query.getD "" = "")
    (hmsg : pyStrip (payload.message.getD "") = "") :
    singleChat invS hist data =
      { status := 400, body := "Please enter a query.", newHistory := hist, console := [] } ∧
    isClientError (singleChat invS hist data).status ∧
    appChat invA payload =
      { status := 200
        answer := pyStrip ((invA "" (lc_history_from_json payload.history)).answer.getD "")
        sources := sources_from_context
          ((invA "" (lc_history_from_json payload.history)).context.getD []) } := by
  have h1 : singleChat invS hist data =
      { status := 400, body := "Please enter a query.", newHistory := hist, console := [] } := by
    unfold singleChat
    rw [if_pos hq]
  refine ⟨h1, ?_, ?_⟩
  · rw [h1]
    show isClientError 400
    decide
  · simp only [appChat, hmsg]

/-- C1 amended, witness: empty-string query / missing message. -/
theorem chat_empty_query_handling_witness :
    ((({ query := some "" } : SinglePayload).query.getD "") = "" ∧
      pyStrip ((({ message := none, history := [] } : AppPayload).message.getD "")) = "") ∧
    (singleChat (fun _ _ => Except.ok { answer := "a" }) [] { query := some "" } =
      { status := 400, body := "Please enter a query.", newHistory := [], console := [] } ∧
    isClientError (singleChat (fun _ _ => Except.ok { answer := "a" }) []
        { query := some "" }).status ∧
    appChat (fun _ _ => { answer := some "a", context := some [] })
        { message := none, history := [] } =
      { status := 200
        answer := pyStrip (((fun (_ : String) (_ : List LcMessage) =>
            ({ answer := some "a", context := some [] } : RagResult)) ""
            (lc_history_from_json ([] : List RoleMsg))).answer.getD "")
        sources := sources_from_context (((fun (_ : String) (_ : List LcMessage) =>
            ({ answer := some "a", context := some [] } : RagResult)) ""
            (lc_history_from_json ([] : List RoleMsg))).context.getD []) }) :=
  ⟨⟨rfl, rfl⟩,
    chat_empty_query_handling (fun _ _ => Except.ok { answer := "a" })
      (fun _ _ => { answer := some "a", context := some [] })
      [] { query := some "" } { message := none, history := [] } rfl rfl⟩

/-- C6: whenever the standalone variant's retrieval-chain call raises, the
handler returns HTTP 500 with the fixed generic body — identical for every
exception; the exception's text appears only in the console output, never in
the response. -/
theorem single_internal_error_generic
    (inv : String → List LcMessage → Except String ChainOutput)
    (hist : List LcMessage) (data : SinglePayload) (e : String)
    (hq : data.query.getD "" ≠ "")
    (herr : inv (data.query.getD "") hist = Except.error e) :
    (singleChat inv hist data).status = 500 ∧
    (singleChat inv hist data).body = "An error occurred while processing your request." ∧
    (singleChat inv hist data).newHistory = hist ∧
    (singleChat inv hist data).console = ["An error occurred: " ++ e] := by
  have h1 : singleChat inv hist data =
      { status := 500
        body := "An error occurred while processing your request."
        newHistory := hist
        console := ["An error occurred: " ++ e] } := by
    unfold singleChat
    rw [if_neg hq, herr]
  rw [h1]
  exact ⟨rfl, rfl, rfl, rfl⟩

/-- C6 witness at a concrete query and exception. -/
theorem single_internal_error_generic_witness :
    ((({ query := some "hi" } : SinglePayload).query.getD "") ≠ "" ∧
      (fun (_ : String) (_ : List LcMessage) =>
          (Except.error "boom" : Except String ChainOutput)) "hi" [] = Except.error "boom") ∧
    ((singleChat (fun _ _ => Except.error "boom") [] { query := some "hi" }).status = 500 ∧
      (singleChat (fun _ _ => Except.error "boom") [] { query := some "hi" }).body =
        "An error occurred while processing your request." ∧
      (singleChat (fun _ _ => Except.error "boom") [] { query := some "hi" }).newHistory = [] ∧
      (singleChat (fun _ _ => Except.error "boom") [] { query := some "hi" }).console =
        ["An error occurred: " ++ "boom"]) :=
  ⟨⟨by decide, rfl⟩,
    single_internal_error_generic (fun _ _ => Except.error "boom") [] { query := some "hi" }
      "boom" (by decide) rfl⟩

/-- C10: the standalone handler's global history update is atomic per request —
if the chain call raises, the history is unchanged and the request fails with
HTTP 500; if it succeeds, exactly a HumanMessage with the query and then an
AIMessage with the answer are appended, the existing entries untouched. -/
theorem single_chat_history_atomic
    (inv : String → List LcMessage → Except String ChainOutput)
    (hist : List LcMessage) (data : SinglePayload) (q : String)
    (hq : data.query = some q) (hne : q ≠ "") :
    (∀ e, inv q hist = Except.error e →
        (singleChat inv hist data).newHistory = hist ∧
        (singleChat inv hist data).status = 500) ∧
    (∀ r, inv q hist = Except.ok r →
        (singleChat inv hist data).newHistory =
          hist ++ [LcMessage.human q, LcMessage.ai r.answer] ∧
        (singleChat inv hist data).newHistory.take hist.length = hist ∧
        (singleChat inv hist data).status = 200) := by
  have hq' : data.query.getD "" = q := by rw [hq]; rfl
  constructor
  · intro e herr
    have h1 := single_internal_error_generic inv hist data e
      (by rw [hq']; exact hne) (by rw [hq']; exact herr)
    exact ⟨h1.2.2.1, h1.1⟩
  · intro r hok
    have h1 : singleChat inv hist data =
        { status := 200
          body := r.answer
          newHistory := hist ++ [LcMessage.human q, LcMessage.ai r.answer]
          console := [] } := by
      unfold singleChat
      rw [hq', if_neg hne, hok]
    rw [h1]
    exact ⟨rfl, List.take_left hist _, rfl⟩

/-- C10 witness: a concrete successful request appends the two messages. -/
theorem single_chat_history_atomic_witness :
    ((({ query := some "hi" } : SinglePayload).query = some "hi") ∧ "hi" ≠ "") ∧
    ((∀ e, (fun (_ : String) (_ : List LcMessage) =>
          (Except.ok { answer := "ans" } : Except String ChainOutput)) "hi"
            [LcMessage.human "old"] = Except.error e →
        (singleChat (fun _ _ => Except.ok { answer := "ans" }) [LcMessage.human "old"]
            { query := some "hi" }).newHistory = [LcMessage.human "old"] ∧
        (singleChat (fun _ _ => Except.ok { answer := "ans" }) [LcMessage.human "old"]
            { query := some "hi" }).status = 500) ∧
      (∀ r, (fun (_ : String) (_ : List LcMessage) =>
          (Except.ok { answer := "ans" } : Except String ChainOutput)) "hi"
            [LcMessage.human "old"] = Except.ok r →
        (singleChat (fun _ _ => Except.ok { answer := "ans" }) [LcMessage.human "old"]
            { query := some "hi" }).newHistory =
          [LcMessage.human "old"] ++ [LcMessage.human "hi", LcMessage.ai r.answer] ∧
        (singleChat (fun _ _ => Except.ok { answer := "ans" }) [LcMessage.human "old"]
            { query := some "hi" }).newHistory.take
              ([LcMessage.human "old"] : List LcMessage).length = [LcMessage.human "old"] ∧
        (singleChat (fun _ _ => Except.ok { answer := "ans" }) [LcMessage.human "old"]
            { query := some "hi" }).status = 200)) :=
  ⟨⟨rfl, by decide⟩,
    single_chat_history_atomic (fun _ _ => Except.ok { answer := "ans" })
      [LcMessage.human "old"] { query := some "hi" } "hi" rfl (by decide)⟩

/-- C4: a successful /chat response of the primary service carries the chain's
stripped answer and one source descriptor per retrieved context chunk, in
retrieval order; the descriptor at each position holds that chunk's `page`
metadata, its `source` string (defaulted when absent), and a preview equal to
the stripped 220-character cut of the chunk's text, hence of length at most
220. -/
theorem app_chat_response_shape
    (inv : String → List LcMessage → RagResult) (payload : AppPayload)
    (ctx : List Document) (i : Nat) (hi : i < ctx.length) :
    (appChat inv payload).status = 200 ∧
    (appChat inv payload).answer =
      pyStrip ((inv (pyStrip (payload.message.getD ""))
        (lc_history_from_json payload.history)).answer.getD "") ∧
    (appChat inv payload).sources =
      sources_from_context ((inv (pyStrip (payload.message.getD ""))
        (lc_history_from_json payload.history)).context.getD []) ∧
    (sources_from_context ctx).length = ctx.length ∧
    (sources_from_context ctx).getD i emptyDescr =
      { page := (ctx.getD i emptyDoc).metadata.page
        source := (ctx.getD i emptyDoc).metadata.source.getD "Nestlé HR Policy (2012)"
        preview := pyStrip (pySlice 220 (ctx.getD i emptyDoc).page_content) } ∧
    ((sources_from_context ctx).getD i emptyDescr).preview.length ≤ 220 := by
  have hmap : (sources_from_context ctx).getD i emptyDescr =
      { page := (ctx.getD i emptyDoc).metadata.page
        source := (ctx.getD i emptyDoc).metadata.source.getD "Nestlé HR Policy (2012)"
        preview := pyStrip (pySlice 220 (ctx.getD i emptyDoc).page_content) } :=
    getD_map_of_lt _ emptyDescr emptyDoc ctx i hi
  refine ⟨rfl, rfl, rfl, List.length_map ctx _, hmap, ?_⟩
  rw [hmap]
  exact Nat.le_trans (pyStrip_length_le _) (pySlice_length_le 220 _)

/-- C4 witness at a one-chunk context. -/
theorem app_chat_response_shape_witness :
    (0 < ([(⟨"text", ⟨some 1, some "s"⟩⟩ : Document)] : List Document).length) ∧
    ((appChat (fun _ _ => { answer := some "a", context := some [] })
        { message := some "q", history := [] }).status = 200 ∧
      (appChat (fun _ _ => { answer := some "a", context := some [] })
          { message := some "q", history := [] }).answer =
        pyStrip (((fun (_ : String) (_ : List LcMessage) =>
            ({ answer := some "a", context := some [] } : RagResult))
          (pyStrip ((some "q" : Option String).getD ""))
          (lc_history_from_json ([] : List RoleMsg))).answer.getD "") ∧
      (appChat (fun _ _ => { answer := some "a", context := some [] })
          { message := some "q", history := [] }).sources =
        sources_from_context (((fun (_ : String) (_ : List LcMessage) =>
            ({ answer := some "a", context := some [] } : RagResult))
          (pyStrip ((some "q" : Option String).getD ""))
          (lc_history_from_json ([] : List RoleMsg))).context.getD []) ∧
      (sources_from_context [⟨"text", ⟨some 1, some "s"⟩⟩]).length =
        ([(⟨"text", ⟨some 1, some "s"⟩⟩ : Document)] : List Document).length ∧
      (sources_from_context [⟨"text", ⟨some 1, some "s"⟩⟩]).getD 0 emptyDescr =
        { page := (([(⟨"text", ⟨some 1, some "s"⟩⟩ : Document)] : List Document).getD 0
            emptyDoc).metadata.page
          source := (([(⟨"text", ⟨some 1, some "s"⟩⟩ : Document)] : List Document).getD 0
            emptyDoc).metadata.source.getD "Nestlé HR Policy (2012)"
          preview := pyStrip (pySlice 220 (([(⟨"text", ⟨some 1, some "s"⟩⟩ : Document)] :
            List Document).getD 0 emptyDoc).page_content) } ∧
      ((sources_from_context [⟨"text", ⟨some 1, some "s"⟩⟩]).getD 0 emptyDescr).preview.length
        ≤ 220) :=
  ⟨by decide,
    app_chat_response_shape (fun _ _ => { answer := some "a", context := some [] })
      { message := some "q", history := [] } [⟨"text", ⟨some 1, some "s"⟩⟩] 0 (by decide)⟩

/-- C8: the primary service's retriever is configured with k = 5 and similarity
retrieval returns the 5 nearest index entries by embedding-space distance,
most relevant first (every returned entry is from the corpus, the result is
sorted by increasing distance, and no withheld entry is closer than a returned
one); the standalone variant passes no k, leaving the library default. -/
theorem retrieval_returns_nearest (corpus : List ScoredDoc) (x y : ScoredDoc)
    (hx : x ∈ appRetrieve corpus)
    (hy : y ∈ (List.insertionSort distLE corpus).drop 5) :
    appRetrieverK = some 5 ∧
    singleAppRetrieverK = none ∧
    appRetrieve corpus = (List.insertionSort distLE corpus).take 5 ∧
    (appRetrieve corpus).length = min 5 corpus.length ∧
    List.Sorted distLE (appRetrieve corpus) ∧
    x ∈ corpus ∧
    x.dist ≤ y.dist := by
  have hsorted : List.Sorted distLE (List.insertionSort distLE corpus) :=
    List.sorted_insertionSort distLE corpus
  refine ⟨rfl, rfl, rfl, ?_, ?_, ?_, ?_⟩
  · show ((List.insertionSort distLE corpus).take 5).length = min 5 corpus.length
    rw [List.length_take, List.length_insertionSort]
  · exact List.Pairwise.sublist (List.take_sublist 5 _) hsorted
  · exact (List.mem_insertionSort distLE).mp (List.take_subset 5 _ hx)
  · have hs2 : List.Pairwise distLE
        ((List.insertionSort distLE corpus).take 5 ++ (List.insertionSort distLE corpus).drop 5) := by
      rw [List.take_append_drop]
      exact hsorted
    exact (List.pairwise_append.mp hs2).2.2 x hx y hy

/-- C8 witness at the six-entry corpus: the entry at distance 0 is retrieved,
the entry at distance 5 is withheld. -/
theorem retrieval_returns_nearest_witness :
    ((⟨emptyDoc, 0⟩ : ScoredDoc) ∈ appRetrieve corpusW ∧
      (⟨emptyDoc, 5⟩ : ScoredDoc) ∈ (List.insertionSort distLE corpusW).drop 5) ∧
    (appRetrieverK = some 5 ∧
      singleAppRetrieverK = none ∧
      appRetrieve corpusW = (List.insertionSort distLE corpusW).take 5 ∧
      (appRetrieve corpusW).length = min 5 corpusW.length ∧
      List.Sorted distLE (appRetrieve corpusW) ∧
      (⟨emptyDoc, 0⟩ : ScoredDoc) ∈ corpusW ∧
      (⟨emptyDoc, 0⟩ : ScoredDoc).dist ≤ (⟨emptyDoc, 5⟩ : ScoredDoc).dist) :=
  ⟨⟨by decide, by decide⟩,
    retrieval_returns_nearest corpusW ⟨emptyDoc, 0⟩ ⟨emptyDoc, 5⟩ (by decide) (by decide)⟩
